import Mathlib

/-!
Verification of the terminal Snake game core (`src/main.py`): a shallow
embedding of the data model (`Coordinate`, `Snake`, `Playground`,
`Gameplay`) and of the game loop's per-tick state updates, with theorems
settling the specification's claims.  Python integers are modelled as
`Int`; the `float` score and speed counters are modelled over exact
rationals; fallible operations (deque `pop` / indexing on an empty deque)
return `Option`.
-/

/-- Python frozen dataclass `Coordinate` with integer fields `y`, `x`. -/
structure Coordinate where
  y : Int
  x : Int
deriving DecidableEq, Repr

/-- Python `Coordinate.__add__`: component-wise sum. -/
instance : Add Coordinate where
  add a b := ⟨a.y + b.y, a.x + b.x⟩

theorem Coordinate.add_def (a b : Coordinate) : a + b = ⟨a.y + b.y, a.x + b.x⟩ := rfl

/-- Python `Snake`: a direction vector and the body deque `queue`; the
deque's left end (index 0) is the head, its right end the tail.  The deque
is modelled as a `List` whose first element is the deque's left end. -/
structure Snake where
  direction : Coordinate
  queue : List Coordinate
deriving DecidableEq, Repr

/-- Python `Snake.__init__(direction, length, position)`: the body is
`[position + Coordinate(1, i + 1) for i in reversed(range(length))]`. -/
def Snake.init (direction : Coordinate) (length : Nat) (position : Coordinate) : Snake :=
  { direction := direction
    queue := (List.range length).reverse.map (fun i => position + ⟨1, (i : Int) + 1⟩) }

/-- Python `Snake.head`, i.e. `queue[0]`: indexing fails on an empty deque,
hence the `Option`. -/
def Snake.head? (s : Snake) : Option Coordinate :=
  s.queue.head?

/-- Python `Snake.body`: every segment of `queue` except index 0. -/
def Snake.body (s : Snake) : List Coordinate :=
  s.queue.tail

/-- Python `Snake.move`: `queue.pop()` removes the right end (the tail) and
raises on an empty deque; then `queue.appendleft(queue[0] + direction)`,
where `queue[0]` raises when the pop has just emptied the deque. -/
def Snake.move (s : Snake) : Option Snake :=
  match s.queue with
  | [] => none
  | _ :: _ =>
    match s.queue.dropLast.head? with
    | none => none
    | some h => some { s with queue := (h + s.direction) :: s.queue.dropLast }

/-- Python `Snake.eat(bait)`: `queue.append(bait)` at the right end (tail). -/
def Snake.eat (s : Snake) (bait : Coordinate) : Snake :=
  { s with queue := s.queue ++ [bait] }

/-- Python dataclass `Playground`: the grid geometry. -/
structure Playground where
  max_size : Coordinate
deriving DecidableEq, Repr

/-- Python `Playground.origin`. -/
def Playground.origin (_ : Playground) : Coordinate := ⟨0, 0⟩

/-- Python `Playground.center`: `//` is floor division. -/
def Playground.center (p : Playground) : Coordinate :=
  ⟨Int.fdiv p.max_size.y 2, Int.fdiv p.max_size.x 2⟩

/-- Python `random.randint(lo, hi)` (both ends inclusive), modelled as a
function of the raw RNG draw `r`: for `lo ≤ hi` the reachable values are
exactly the integers of `[lo, hi]`. -/
def randint (lo hi : Int) (r : Nat) : Int :=
  lo + (r : Int) % (hi - lo + 1)

/-- Python `Playground.random_point`: row `randint(1, rows - 2)`, col
`randint(1, cols - 2)`, with the two RNG draws passed explicitly. -/
def Playground.random_point (p : Playground) (r1 r2 : Nat) : Coordinate :=
  ⟨randint 1 (p.max_size.y - 2) r1, randint 1 (p.max_size.x - 2) r2⟩

/-- Python `curses.KEY_DOWN`. -/
def KEY_DOWN : Nat := 258

/-- Python `curses.KEY_UP`. -/
def KEY_UP : Nat := 259

/-- Python `curses.KEY_LEFT`. -/
def KEY_LEFT : Nat := 260

/-- Python `curses.KEY_RIGHT`. -/
def KEY_RIGHT : Nat := 261

/-- Python dataclass `Gameplay`: the snake, the playground, the nullable
bait, and the two private float counters, modelled over exact rationals. -/
structure Gameplay where
  snake : Snake
  playground : Playground
  bait : Option Coordinate
  current_speed : ℚ
  current_score : ℚ
deriving DecidableEq, Repr

/-- Python `Gameplay.__SCORE_MULTIPLIER = 2`. -/
def Gameplay.SCORE_MULTIPLIER : ℚ := 2

/-- Python `Gameplay.__SPEED_MULTIPLIER = 0.99`. -/
def Gameplay.SPEED_MULTIPLIER : ℚ := 99 / 100

/-- Python `Gameplay(snake, playground)` with the dataclass defaults
`bait = None`, `__current_speed = 0.1`, `__current_score = 0`. -/
def Gameplay.init (snake : Snake) (playground : Playground) : Gameplay :=
  { snake := snake
    playground := playground
    bait := none
    current_speed := 1 / 10
    current_score := 0 }

/-- Python `Gameplay.DIRECTIONS`: the four curses arrow keys mapped to the
four unit vectors. -/
def Gameplay.DIRECTIONS : List (Nat × Coordinate) :=
  [(KEY_UP, ⟨-1, 0⟩), (KEY_DOWN, ⟨1, 0⟩), (KEY_LEFT, ⟨0, -1⟩), (KEY_RIGHT, ⟨0, 1⟩)]

/-- Python `Gameplay.check_boundary`: head in body, or `head.y in (0, rows - 1)`,
or `head.x in (0, cols - 1)`; reading the head fails on an empty body. -/
def Gameplay.check_boundary (g : Gameplay) : Option Bool :=
  g.snake.head?.map (fun h =>
    decide (h ∈ g.snake.body) ||
    (decide (h.y = 0) || decide (h.y = g.playground.max_size.y - 1)) ||
    (decide (h.x = 0) || decide (h.x = g.playground.max_size.x - 1)))

/-- Python `Gameplay.create_bait`: `bait = playground.random_point`. -/
def Gameplay.create_bait (g : Gameplay) (r1 r2 : Nat) : Gameplay :=
  { g with bait := some (g.playground.random_point r1 r2) }

/-- Python `Gameplay.increase_speed`: `current_speed *= 0.99`. -/
def Gameplay.increase_speed (g : Gameplay) : Gameplay :=
  { g with current_speed := g.current_speed * Gameplay.SPEED_MULTIPLIER }

/-- Python `Gameplay.increase_score`: `current_score = max(1, current_score * 2)`. -/
def Gameplay.increase_score (g : Gameplay) : Gameplay :=
  { g with current_score := max 1 (g.current_score * Gameplay.SCORE_MULTIPLIER) }

/-- Python `Gameplay.did_ate_bait`: `snake.head == bait`; a `Coordinate`
compared with `None` is unequal, and reading the head fails on an empty body. -/
def Gameplay.did_ate_bait (g : Gameplay) : Option Bool :=
  g.snake.head?.map (fun h =>
    match g.bait with
    | none => false
    | some b => decide (h = b))

/-- Python `Gameplay.is_direction_allowed(next_direction)`: `None` is falsy
(a `Coordinate` instance is always truthy, having no `__bool__`/`__len__`),
else `next_direction.y != -direction.y or next_direction.x != -direction.x`. -/
def Gameplay.is_direction_allowed (g : Gameplay) (next_direction : Option Coordinate) : Bool :=
  match next_direction with
  | none => false
  | some c =>
    decide (c.y ≠ -g.snake.direction.y) || decide (c.x ≠ -g.snake.direction.x)

/-- One iteration of the `main` loop's state updates, in source order:
`check_boundary` (a hit raises `SnakeDied`, modelled as `none`),
`did_ate_bait` with `eat` / `create_bait` / `increase_speed` /
`increase_score` on a hit, then `snake.move()`, then the direction change
guarded by `is_direction_allowed`.  `r1 r2` are the RNG draws consumed by
`create_bait`; `key` is the direction the pressed key maps to (or `none`). -/
def Gameplay.tick (g : Gameplay) (r1 r2 : Nat) (key : Option Coordinate) : Option Gameplay := do
  let dead ← g.check_boundary
  if dead then
    none
  else do
    let ate ← g.did_ate_bait
    let g1 ←
      if ate then do
        let b ← g.bait
        pure ((({ g with snake := g.snake.eat b }).create_bait r1 r2).increase_speed.increase_score)
      else
        pure g
    let s ← g1.snake.move
    let g2 := { g1 with snake := s }
    match key with
    | some c =>
      if g2.is_direction_allowed (some c) then
        pure { g2 with snake := { g2.snake with direction := c } }
      else
        pure g2
    | none => pure g2

/-- Squared Euclidean distance between two grid coordinates, used to compare
which body segment lies nearest a reference point. -/
def sqDist (a b : Coordinate) : Int :=
  (a.y - b.y) * (a.y - b.y) + (a.x - b.x) * (a.x - b.x)

/-- Score after `n` calls of `increase_score`. -/
def Gameplay.scoreAfter (g : Gameplay) (n : Nat) : ℚ :=
  (Gameplay.increase_score^[n] g).current_score

/-- Speed after `n` calls of `increase_speed`. -/
def Gameplay.speedAfter (g : Gameplay) (n : Nat) : ℚ :=
  (Gameplay.increase_speed^[n] g).current_speed

/-- A sample mid-board game state on a 20×20 grid, used to instantiate
hypothesis-bearing theorems at a concrete input. -/
def sampleGameplay : Gameplay :=
  Gameplay.init ⟨⟨0, 1⟩, [⟨5, 5⟩, ⟨5, 4⟩]⟩ ⟨⟨20, 20⟩⟩

/-- Start state of the end-to-end scenario: 20×20 playground, snake of
length 3 at the playground center heading right, bait forced onto the
current head, defaults otherwise. -/
def scenarioStart : Gameplay :=
  let playground : Playground := ⟨⟨20, 20⟩⟩
  let snake := Snake.init ⟨0, 1⟩ 3 playground.center
  { Gameplay.init snake playground with bait := snake.head? }

/-- Helper: on a body of at least two segments, `move` pops the tail and
pushes `old head + direction`. -/
theorem Snake.move_eq_of_two_le (s : Snake) (h : 2 ≤ s.queue.length) :
    ∃ hd, s.queue.head? = some hd ∧
      s.move = some { s with queue := (hd + s.direction) :: s.queue.dropLast } := by
  rcases s with ⟨d, q⟩
  rcases q with _ | ⟨a, q⟩
  · simp at h
  rcases q with _ | ⟨b, rest⟩
  · simp at h
  exact ⟨a, rfl, rfl⟩

/-- C1 counterexample: on the length-1 snake the constructor builds,
`move()` fails (the pop empties the deque and `queue[0]` then raises), so
no post-`move` snake with the claimed properties exists at length 1. -/
theorem snake_move_length_one_fails :
    (Snake.init ⟨0, 1⟩ 1 ⟨0, 0⟩).queue.length = 1 ∧
      ¬ ∃ s', (Snake.init ⟨0, 1⟩ 1 ⟨0, 0⟩).move = some s' := by
  constructor
  · rfl
  · rintro ⟨s', hs⟩
    rw [show (Snake.init ⟨0, 1⟩ 1 ⟨0, 0⟩).move = none from rfl] at hs
    exact Option.noConfusion hs

/-- C1 (amended to length ≥ 2): one `move()` keeps the body length, makes
the new head equal old head + direction, removes the old tail segment, and
keeps every other segment in order. -/
theorem snake_move_advances (s : Snake) (h : 2 ≤ s.queue.length) :
    ∃ hd tl s', s.queue.head? = some hd ∧ s.queue.getLast? = some tl ∧
      s.move = some s' ∧ s'.direction = s.direction ∧
      s'.queue = (hd + s.direction) :: s.queue.dropLast ∧
      s.queue = s.queue.dropLast ++ [tl] ∧
      s'.queue.length = s.queue.length := by
  obtain ⟨hd, hh, hm⟩ := Snake.move_eq_of_two_le s h
  have hne : s.queue ≠ [] := by
    intro he
    rw [he] at h
    simp at h
  refine ⟨hd, s.queue.getLast hne, _, hh, List.getLast?_eq_getLast_of_ne_nil hne,
    hm, rfl, rfl, (List.dropLast_append_getLast hne).symm, ?_⟩
  simp only [List.length_cons, List.length_dropLast]
  omega

/-- C1 witness: the amended theorem applied to the concrete length-3 snake
the constructor builds from the origin heading right. -/
theorem snake_move_advances_witness :
    ∃ hd tl s', (Snake.init ⟨0, 1⟩ 3 ⟨0, 0⟩).queue.head? = some hd ∧
      (Snake.init ⟨0, 1⟩ 3 ⟨0, 0⟩).queue.getLast? = some tl ∧
      (Snake.init ⟨0, 1⟩ 3 ⟨0, 0⟩).move = some s' ∧
      s'.direction = (Snake.init ⟨0, 1⟩ 3 ⟨0, 0⟩).direction ∧
      s'.queue = (hd + (Snake.init ⟨0, 1⟩ 3 ⟨0, 0⟩).direction) ::
        (Snake.init ⟨0, 1⟩ 3 ⟨0, 0⟩).queue.dropLast ∧
      (Snake.init ⟨0, 1⟩ 3 ⟨0, 0⟩).queue =
        (Snake.init ⟨0, 1⟩ 3 ⟨0, 0⟩).queue.dropLast ++ [tl] ∧
      s'.queue.length = (Snake.init ⟨0, 1⟩ 3 ⟨0, 0⟩).queue.length :=
  snake_move_advances (Snake.init ⟨0, 1⟩ 3 ⟨0, 0⟩) (by decide)

/-- C10: `move()` fails on every length-1 snake (the pop empties the deque
and `queue[0]` then raises), and succeeds on every snake of length ≥ 2:
length ≥ 2 is the precondition under which `move()` is total. -/
theorem snake_move_needs_two_segments (s₁ s₂ : Snake)
    (h₁ : s₁.queue.length = 1) (h₂ : 2 ≤ s₂.queue.length) :
    s₁.move = none ∧ ∃ s', s₂.move = some s' := by
  constructor
  · rcases s₁ with ⟨d, q⟩
    rcases q with _ | ⟨a, q⟩
    · simp at h₁
    rcases q with _ | ⟨b, rest⟩
    · rfl
    · simp only [List.length_cons] at h₁
      omega
  · obtain ⟨hd, _, hm⟩ := Snake.move_eq_of_two_le s₂ h₂
    exact ⟨_, hm⟩

/-- C10 witness: the length-1 snake from the constructor fails to move, the
length-2 one moves. -/
theorem snake_move_needs_two_segments_witness :
    (Snake.init ⟨0, 1⟩ 1 ⟨0, 0⟩).move = none ∧
      ∃ s', (Snake.init ⟨0, 1⟩ 2 ⟨0, 0⟩).move = some s' :=
  snake_move_needs_two_segments (Snake.init ⟨0, 1⟩ 1 ⟨0, 0⟩)
    (Snake.init ⟨0, 1⟩ 2 ⟨0, 0⟩) (by decide) (by decide)

/-- C3: `eat(b)` appends `b` as the new tail, leaving every existing segment
unchanged in order (length becomes L + 1), and a subsequent `move()` keeps
the length at L + 1. -/
theorem snake_eat_grows_then_move_keeps (s : Snake) (b : Coordinate)
    (h : 1 ≤ s.queue.length) :
    (s.eat b).queue = s.queue ++ [b] ∧
      (s.eat b).queue.length = s.queue.length + 1 ∧
      ∃ s', (s.eat b).move = some s' ∧ s'.queue.length = s.queue.length + 1 := by
  refine ⟨rfl, by simp [Snake.eat], ?_⟩
  have h2 : 2 ≤ (s.eat b).queue.length := by
    simp only [Snake.eat, List.length_append, List.length_cons, List.length_nil]
    omega
  obtain ⟨hd, hh, hm⟩ := Snake.move_eq_of_two_le (s.eat b) h2
  refine ⟨_, hm, ?_⟩
  simp only [List.length_cons, List.length_dropLast, Snake.eat,
    List.length_append, List.length_nil]
  omega

/-- C3 witness: the concrete length-1 snake grows to 2 and still has 2
segments after the following move. -/
theorem snake_eat_grows_then_move_keeps_witness :
    ((Snake.mk ⟨0, 1⟩ [⟨3, 3⟩]).eat ⟨7, 7⟩).queue = [⟨3, 3⟩] ++ [⟨7, 7⟩] ∧
      ((Snake.mk ⟨0, 1⟩ [⟨3, 3⟩]).eat ⟨7, 7⟩).queue.length =
        (Snake.mk ⟨0, 1⟩ [⟨3, 3⟩]).queue.length + 1 ∧
      ∃ s', ((Snake.mk ⟨0, 1⟩ [⟨3, 3⟩]).eat ⟨7, 7⟩).move = some s' ∧
        s'.queue.length = (Snake.mk ⟨0, 1⟩ [⟨3, 3⟩]).queue.length + 1 :=
  snake_eat_grows_then_move_keeps (Snake.mk ⟨0, 1⟩ [⟨3, 3⟩]) ⟨7, 7⟩ (by decide)

/-- C2: `check_boundary()` returns true iff the head equals some non-head
body segment, or the head's row is 0 or rows − 1, or the head's column is
0 or cols − 1; it returns false in every other state. -/
theorem check_boundary_iff (g : Gameplay) (h : g.snake.queue ≠ []) :
    ∃ hd b, g.snake.head? = some hd ∧ g.check_boundary = some b ∧
      (b = true ↔
        ((∃ c ∈ g.snake.body, hd = c) ∨
          hd.y = 0 ∨ hd.y = g.playground.max_size.y - 1 ∨
          hd.x = 0 ∨ hd.x = g.playground.max_size.x - 1)) := by
  rcases g with ⟨⟨d, q⟩, pg, bait, sp, sc⟩
  rcases q with _ | ⟨a, rest⟩
  · exact absurd rfl h
  refine ⟨a, _, rfl, rfl, ?_⟩
  have hmem : (∃ c ∈ rest, a = c) ↔ a ∈ rest := by
    constructor
    · rintro ⟨c, hc, rfl⟩
      exact hc
    · intro hc
      exact ⟨a, hc, rfl⟩
  simp only [Gameplay.check_boundary, Snake.body, Bool.or_eq_true, decide_eq_true_eq,
    List.tail_cons, hmem]
  tauto

/-- C2 witness: the sample mid-board state has a well-defined, false
boundary check. -/
theorem check_boundary_iff_witness :
    ∃ hd b, sampleGameplay.snake.head? = some hd ∧
      sampleGameplay.check_boundary = some b ∧
      (b = true ↔
        ((∃ c ∈ sampleGameplay.snake.body, hd = c) ∨
          hd.y = 0 ∨ hd.y = sampleGameplay.playground.max_size.y - 1 ∨
          hd.x = 0 ∨ hd.x = sampleGameplay.playground.max_size.x - 1)) :=
  check_boundary_iff sampleGameplay (by decide)

/-- Helper: a present candidate is allowed exactly when it differs from the
exact opposite of the current direction. -/
theorem is_direction_allowed_some_iff (g : Gameplay) (c : Coordinate) :
    g.is_direction_allowed (some c) = true ↔
      c ≠ ⟨-g.snake.direction.y, -g.snake.direction.x⟩ := by
  rcases c with ⟨cy, cx⟩
  simp only [Gameplay.is_direction_allowed, Bool.or_eq_true, decide_eq_true_eq,
    ne_eq, Coordinate.mk.injEq, not_and]
  tauto

/-- C4: with the current direction one of the four unit vectors, an absent
candidate is refused, the exact opposite (both components negated) is
refused, and every other candidate — the current direction itself
included — is allowed. -/
theorem is_direction_allowed_spec (g : Gameplay)
    (h : g.snake.direction ∈ Gameplay.DIRECTIONS.map Prod.snd) :
    g.is_direction_allowed none = false ∧
      g.is_direction_allowed
        (some ⟨-g.snake.direction.y, -g.snake.direction.x⟩) = false ∧
      (∀ c : Coordinate, c ≠ ⟨-g.snake.direction.y, -g.snake.direction.x⟩ →
        g.is_direction_allowed (some c) = true) ∧
      g.is_direction_allowed (some g.snake.direction) = true := by
  refine ⟨rfl, ?_, ?_, ?_⟩
  · simp [Gameplay.is_direction_allowed]
  · intro c hc
    exact (is_direction_allowed_some_iff g c).mpr hc
  · refine (is_direction_allowed_some_iff g g.snake.direction).mpr ?_
    simp only [Gameplay.DIRECTIONS, List.map_cons, List.map_nil, List.mem_cons,
      List.not_mem_nil, or_false] at h
    rcases h with h1 | h1 | h1 | h1 <;> rw [h1] <;> decide

/-- C4 witness: the sample state heads right; its opposite (left) is
refused, everything else allowed. -/
theorem is_direction_allowed_spec_witness :
    sampleGameplay.is_direction_allowed none = false ∧
      sampleGameplay.is_direction_allowed
        (some ⟨-sampleGameplay.snake.direction.y,
               -sampleGameplay.snake.direction.x⟩) = false ∧
      (∀ c : Coordinate,
        c ≠ ⟨-sampleGameplay.snake.direction.y,
             -sampleGameplay.snake.direction.x⟩ →
        sampleGameplay.is_direction_allowed (some c) = true) ∧
      sampleGameplay.is_direction_allowed
        (some sampleGameplay.snake.direction) = true :=
  is_direction_allowed_spec sampleGameplay (by decide)

/-- C5: from the 20×20 scenario start (snake of length 3 centered, heading
right, bait on the head, score 0, speed 0.1), one tick of the loop — for
every RNG draw and with no key pressed — grows the snake to length 4,
raises the score from 0 to 1 and lowers the speed from 0.1 to 0.099. -/
theorem scenario_tick_outcome (r1 r2 : Nat) :
    scenarioStart.snake.queue.length = 3 ∧ scenarioStart.current_score = 0 ∧
      scenarioStart.current_speed = 1 / 10 ∧
      ∃ g', scenarioStart.tick r1 r2 none = some g' ∧
        g'.snake.queue.length = 4 ∧ g'.current_score = 1 ∧
        g'.current_speed = 99 / 1000 := by
  refine ⟨rfl, rfl, rfl, ?_⟩
  refine ⟨{ snake := ⟨⟨0, 1⟩, [⟨11, 14⟩, ⟨11, 13⟩, ⟨11, 12⟩, ⟨11, 11⟩]⟩,
            playground := ⟨⟨20, 20⟩⟩,
            bait := some ((⟨⟨20, 20⟩⟩ : Playground).random_point r1 r2),
            current_speed := 1 / 10 * (99 / 100),
            current_score := max 1 (0 * 2) }, rfl, rfl, ?_, ?_⟩
  · show max 1 ((0 : ℚ) * 2) = 1
    norm_num
  · show (1 : ℚ) / 10 * (99 / 100) = 99 / 1000
    norm_num

/-- Helper: `increase_score` never decreases the score. -/
theorem increase_score_le (g : Gameplay) :
    g.current_score ≤ g.increase_score.current_score := by
  show g.current_score ≤ max 1 (g.current_score * Gameplay.SCORE_MULTIPLIER)
  rcases le_total g.current_score 1 with h1 | h1
  · exact h1.trans (le_max_left _ _)
  · refine le_trans ?_ (le_max_right _ _)
    show g.current_score ≤ g.current_score * 2
    linarith

/-- Helper: the score sequence is monotone along calls of `increase_score`. -/
theorem scoreAfter_mono (g : Gameplay) : Monotone g.scoreAfter := by
  apply monotone_nat_of_le_succ
  intro n
  rw [Gameplay.scoreAfter, Gameplay.scoreAfter, Function.iterate_succ_apply']
  exact increase_score_le _

/-- C6: `increase_score()` sets the score to `max(1, score × 2)`; from
score 0 the first call yields exactly 1, the second at least 2, and along
every sequence of calls the score never decreases. -/
theorem increase_score_spec (g : Gameplay) :
    g.increase_score.current_score =
        max 1 (g.current_score * Gameplay.SCORE_MULTIPLIER) ∧
      (g.current_score = 0 →
        g.increase_score.current_score = 1 ∧
          2 ≤ g.increase_score.increase_score.current_score) ∧
      ∀ m n : Nat, m ≤ n → g.scoreAfter m ≤ g.scoreAfter n := by
  refine ⟨rfl, ?_, fun m n hmn => scoreAfter_mono g hmn⟩
  intro h0
  have e1 : g.increase_score.current_score = 1 := by
    show max 1 (g.current_score * Gameplay.SCORE_MULTIPLIER) = 1
    rw [h0]
    norm_num [Gameplay.SCORE_MULTIPLIER]
  refine ⟨e1, ?_⟩
  show 2 ≤ max 1 (g.increase_score.current_score * Gameplay.SCORE_MULTIPLIER)
  rw [e1]
  refine le_trans ?_ (le_max_right 1 (1 * Gameplay.SCORE_MULTIPLIER))
  norm_num [Gameplay.SCORE_MULTIPLIER]

/-- C6 witness: the claim instantiated at the sample state, whose score
is 0. -/
theorem increase_score_spec_witness :
    sampleGameplay.increase_score.current_score =
        max 1 (sampleGameplay.current_score * Gameplay.SCORE_MULTIPLIER) ∧
      (sampleGameplay.current_score = 0 →
        sampleGameplay.increase_score.current_score = 1 ∧
          2 ≤ sampleGameplay.increase_score.increase_score.current_score) ∧
      ∀ m n : Nat, m ≤ n →
        sampleGameplay.scoreAfter m ≤ sampleGameplay.scoreAfter n :=
  increase_score_spec sampleGameplay

/-- C7: the speed multiplier 0.99 lies strictly between 0 and 1, each
`increase_speed()` strictly decreases a positive speed, and after any finite
number of calls the speed stays strictly positive (exact rationals). -/
theorem increase_speed_spec (g : Gameplay) (h : 0 < g.current_speed) :
    (0 < Gameplay.SPEED_MULTIPLIER ∧ Gameplay.SPEED_MULTIPLIER < 1) ∧
      g.increase_speed.current_speed < g.current_speed ∧
      ∀ n : Nat, 0 < g.speedAfter n := by
  have hm0 : 0 < Gameplay.SPEED_MULTIPLIER := by norm_num [Gameplay.SPEED_MULTIPLIER]
  have hm1 : Gameplay.SPEED_MULTIPLIER < 1 := by norm_num [Gameplay.SPEED_MULTIPLIER]
  refine ⟨⟨hm0, hm1⟩, ?_, ?_⟩
  · show g.current_speed * Gameplay.SPEED_MULTIPLIER < g.current_speed
    exact mul_lt_of_lt_one_right h hm1
  · intro n
    induction n with
    | zero => simpa [Gameplay.speedAfter] using h
    | succ n ih =>
      rw [Gameplay.speedAfter, Function.iterate_succ_apply']
      show 0 < (Gameplay.increase_speed^[n] g).current_speed * Gameplay.SPEED_MULTIPLIER
      exact mul_pos ih hm0

/-- C7 witness: the claim instantiated at the sample state, whose speed
is 0.1. -/
theorem increase_speed_spec_witness :
    (0 < Gameplay.SPEED_MULTIPLIER ∧ Gameplay.SPEED_MULTIPLIER < 1) ∧
      sampleGameplay.increase_speed.current_speed <
        sampleGameplay.current_speed ∧
      ∀ n : Nat, 0 < sampleGameplay.speedAfter n :=
  increase_speed_spec sampleGameplay
    (by norm_num [sampleGameplay, Gameplay.init])

/-- Helper: for `lo ≤ hi`, every value `randint lo hi` can draw lies in
`[lo, hi]`. -/
theorem randint_bounds (lo hi : Int) (r : Nat) (h : lo ≤ hi) :
    lo ≤ randint lo hi r ∧ randint lo hi r ≤ hi := by
  have hm : (0 : Int) < hi - lo + 1 := by omega
  have h1 : 0 ≤ (r : Int) % (hi - lo + 1) := Int.emod_nonneg _ (by omega)
  have h2 : (r : Int) % (hi - lo + 1) < hi - lo + 1 := Int.emod_lt_of_pos _ hm
  unfold randint
  constructor <;> linarith

/-- C8: on a playground with rows ≥ 3 and cols ≥ 3, every bait
`create_bait` can place is the drawn `random_point`, whose row lies in
`[1, rows − 2]` and column in `[1, cols − 2]`, never on the border ring. -/
theorem create_bait_interior (g : Gameplay) (r1 r2 : Nat)
    (hy : 3 ≤ g.playground.max_size.y) (hx : 3 ≤ g.playground.max_size.x) :
    ∃ b, (g.create_bait r1 r2).bait = some b ∧
      b = g.playground.random_point r1 r2 ∧
      1 ≤ b.y ∧ b.y ≤ g.playground.max_size.y - 2 ∧
      1 ≤ b.x ∧ b.x ≤ g.playground.max_size.x - 2 ∧
      b.y ≠ 0 ∧ b.y ≠ g.playground.max_size.y - 1 ∧
      b.x ≠ 0 ∧ b.x ≠ g.playground.max_size.x - 1 := by
  obtain ⟨hy1, hy2⟩ := randint_bounds 1 (g.playground.max_size.y - 2) r1 (by omega)
  obtain ⟨hx1, hx2⟩ := randint_bounds 1 (g.playground.max_size.x - 2) r2 (by omega)
  refine ⟨_, rfl, rfl, ?_, ?_, ?_, ?_, ?_, ?_, ?_, ?_⟩ <;>
    simp only [Playground.random_point] <;> omega

/-- C8 witness: the claim instantiated on the sample 20×20 state with
concrete RNG draws. -/
theorem create_bait_interior_witness :
    ∃ b, (sampleGameplay.create_bait 5 6).bait = some b ∧
      b = sampleGameplay.playground.random_point 5 6 ∧
      1 ≤ b.y ∧ b.y ≤ sampleGameplay.playground.max_size.y - 2 ∧
      1 ≤ b.x ∧ b.x ≤ sampleGameplay.playground.max_size.x - 2 ∧
      b.y ≠ 0 ∧ b.y ≠ sampleGameplay.playground.max_size.y - 1 ∧
      b.x ≠ 0 ∧ b.x ≠ sampleGameplay.playground.max_size.x - 1 :=
  create_bait_interior sampleGameplay 5 6 (by decide) (by decide)

/-- C9 counterexample: for requested length 2 and reference point (0, 0) the
constructor's head is (1, 2) while segment (1, 1) also belongs to the body
and lies strictly nearer the reference point, so the head is not the segment
nearest the reference point. -/
theorem snake_init_head_not_nearest :
    (Snake.init ⟨0, 1⟩ 2 ⟨0, 0⟩).queue.head? = some ⟨1, 2⟩ ∧
      (⟨1, 1⟩ : Coordinate) ∈ (Snake.init ⟨0, 1⟩ 2 ⟨0, 0⟩).queue ∧
      sqDist ⟨0, 0⟩ ⟨1, 1⟩ < sqDist ⟨0, 0⟩ ⟨1, 2⟩ := by decide

/-- C9 (amended: the head is the segment farthest from the reference point,
not the nearest): the constructor builds exactly the L segments
`p + (1, i + 1)` for i from L − 1 down to 0, pairwise distinct, ignoring no
direction, with head `p + (1, L)`. -/
theorem snake_init_spec (d : Coordinate) (L : Nat) (p : Coordinate) (h : 1 ≤ L) :
    (Snake.init d L p).direction = d ∧
      (Snake.init d L p).queue =
        (List.range L).reverse.map (fun i => p + ⟨1, (i : Int) + 1⟩) ∧
      (Snake.init d L p).queue.length = L ∧
      (Snake.init d L p).queue.Nodup ∧
      (Snake.init d L p).queue.head? = some (p + ⟨1, (L : Int)⟩) ∧
      ∀ c ∈ (Snake.init d L p).queue,
        sqDist p c ≤ sqDist p (p + ⟨1, (L : Int)⟩) := by
  have hinj : Function.Injective (fun i : Nat => p + (⟨1, (i : Int) + 1⟩ : Coordinate)) := by
    intro i j hij
    simp only [Coordinate.add_def, Coordinate.mk.injEq] at hij
    omega
  have hdist : ∀ j : Int, sqDist p (p + ⟨1, j⟩) = 1 + j * j := by
    intro j
    simp only [sqDist, Coordinate.add_def]
    ring
  refine ⟨rfl, rfl, ?_, ?_, ?_, ?_⟩
  · simp [Snake.init]
  · show ((List.range L).reverse.map _).Nodup
    exact List.Nodup.map hinj (List.nodup_reverse.mpr (List.nodup_range L))
  · rcases L with _ | K
    · exact absurd h (by decide)
    · show ((List.range (K + 1)).reverse.map _).head? = _
      rw [List.range_succ, List.reverse_append]
      simp only [List.reverse_cons, List.reverse_nil, List.nil_append,
        List.singleton_append, List.map_cons, List.head?_cons]
      norm_cast
  · intro c hc
    have hcm : ∃ i, i < L ∧ c = p + ⟨1, (i : Int) + 1⟩ := by
      simp only [Snake.init, List.mem_map, List.mem_reverse, List.mem_range] at hc
      obtain ⟨i, hi, hce⟩ := hc
      exact ⟨i, hi, hce.symm⟩
    obtain ⟨i, hi, rfl⟩ := hcm
    rw [hdist, hdist]
    have h1 : (0 : Int) ≤ (i : Int) + 1 := by positivity
    have h2 : (i : Int) + 1 ≤ (L : Int) := by exact_mod_cast hi
    nlinarith [mul_self_le_mul_self h1 h2]

/-- C9 witness: the amended claim at direction right, length 3, reference
point (0, 0). -/
theorem snake_init_spec_witness :
    (Snake.init ⟨0, 1⟩ 3 ⟨0, 0⟩).direction = ⟨0, 1⟩ ∧
      (Snake.init ⟨0, 1⟩ 3 ⟨0, 0⟩).queue =
        (List.range 3).reverse.map
          (fun i => (⟨0, 0⟩ : Coordinate) + ⟨1, (i : Int) + 1⟩) ∧
      (Snake.init ⟨0, 1⟩ 3 ⟨0, 0⟩).queue.length = 3 ∧
      (Snake.init ⟨0, 1⟩ 3 ⟨0, 0⟩).queue.Nodup ∧
      (Snake.init ⟨0, 1⟩ 3 ⟨0, 0⟩).queue.head? =
        some ((⟨0, 0⟩ : Coordinate) + ⟨1, ((3 : Nat) : Int)⟩) ∧
      ∀ c ∈ (Snake.init ⟨0, 1⟩ 3 ⟨0, 0⟩).queue,
        sqDist ⟨0, 0⟩ c ≤
          sqDist ⟨0, 0⟩ ((⟨0, 0⟩ : Coordinate) + ⟨1, ((3 : Nat) : Int)⟩) :=
  snake_init_spec ⟨0, 1⟩ 3 ⟨0, 0⟩ (by decide)
